import Mathlib

/-
Verification of the multi-step symptom intake form (prediction-system).

The embedding follows src/src/components/symptom-form.tsx (the Zod schema
`formSchema`, the wizard navigation `goToNextStep` / `goToPreviousStep` /
`skipStep`, and the submission handler `onSubmit`), together with the step
components in src/unnamed/part_000 (ProfileInfoStep, `genderOptions`) and
src/unnamed/part_001 (MedicalHistoryStep, MedicalImageStep with `removeImage`,
SymptomsStep with the remove-symptom guard).

Records are modelled at the type the code declares for validated data
(`FormData = z.infer<typeof formSchema>`): JS numbers become rationals,
optional fields become `Option`, a `FileList` becomes an optional list of
files carrying byte size and content type.  Validation produces the ordered
list of (path, message) issues that the Zod schema emits on a well-typed
record: per-field checks in field order, then the three `.refine`
cross-field rules (on a well-typed record no field aborts parsing, so all
three refinements run).  Error paths are a structured inductive mirroring
Zod paths such as ["weightUnit"] or ["symptoms", i, "name"].
-/

namespace PredictionSystem

/-- A symptom entry, as in `symptomSchema`. -/
structure Symptom where
  name : String
  severity : String
deriving Repr, DecidableEq

/-- The raw medical-history text fields, as in `medicalHistorySchema`. -/
structure MedicalHistory where
  pastConditions : Option String
  currentMedications : Option String
deriving Repr, DecidableEq

/-- One file of an uploaded `FileList`: byte size and content type. -/
structure ImageFile where
  size : Nat
  type : String
deriving Repr, DecidableEq

/-- Validation error paths emitted by the schema, mirroring Zod paths. -/
inductive FieldPath where
  | name
  | age
  | weight
  | weightUnit
  | height
  | heightUnit
  | gender
  | symptoms
  | symptomName (i : Nat)
  | symptomSeverity (i : Nat)
  | medicalImage
  | imageDescription
deriving Repr, DecidableEq

/-- The validated record type `FormData = z.infer<typeof formSchema>`. -/
structure FormData where
  name : String
  age : ℚ
  weight : Option ℚ
  weightUnit : Option String
  height : Option ℚ
  heightUnit : Option String
  gender : String
  symptoms : List Symptom
  medicalHistory : MedicalHistory
  medicalImage : Option (List ImageFile)
  imageDescription : Option String
deriving Repr, DecidableEq

/-- A validation issue: the field path it is attached to and its message. -/
abbrev FieldError := FieldPath × String

/-- `MAX_FILE_SIZE = 10 * 1024 * 1024` (10MB). -/
def MAX_FILE_SIZE : Nat := 10 * 1024 * 1024

/-- `ACCEPTED_IMAGE_TYPES` from symptom-form.tsx. -/
def ACCEPTED_IMAGE_TYPES : List String :=
  ["image/jpeg", "image/jpg", "image/png", "image/webp", "image/dicom"]

/-- `genderOptions` offered by the ProfileInfoStep select (part_000). -/
def genderOptions : List String := ["Male", "Female", "Other", "Prefer not to say"]

/-- `severityLevels` offered by the SymptomsStep select (part_001). -/
def severityLevels : List String := ["Mild", "Moderate", "Severe", "Very Severe"]

/-- JS truthiness of an optional number (`data.weight ? ... : ...`). -/
def ratTruthy : Option ℚ → Bool
  | none => false
  | some x => x != 0

/-- JS truthiness of an optional string (`!!data.weightUnit`). -/
def strTruthy : Option String → Bool
  | none => false
  | some s => s != ""

/-- The condition `data.medicalImage && data.medicalImage.length > 0`. -/
def imageNonempty : Option (List ImageFile) → Bool
  | none => false
  | some l => decide (0 < l.length)

/-- `z.string().min(1, 'Name is required.')`. -/
def validateName (n : String) : List FieldError :=
  if 1 ≤ n.length then [] else [(.name, "Name is required.")]

/-- `z.coerce.number().int().positive('Age must be a positive number.').min(1, 'Age is required.')`. -/
def validateAge (a : ℚ) : List FieldError :=
  (if a.den = 1 then [] else [(.age, "Expected integer, received float")]) ++
  (if 0 < a then [] else [(.age, "Age must be a positive number.")]) ++
  (if 1 ≤ a then [] else [(.age, "Age is required.")])

/-- `z.coerce.number().positive('Weight must be positive').optional()`. -/
def validateWeight : Option ℚ → List FieldError
  | none => []
  | some w => if 0 < w then [] else [(.weight, "Weight must be positive")]

/-- `z.coerce.number().positive('Height must be positive').optional()`. -/
def validateHeight : Option ℚ → List FieldError
  | none => []
  | some h => if 0 < h then [] else [(.height, "Height must be positive")]

/-- `gender: z.string().min(1, 'Gender is required.')`. -/
def validateGender (g : String) : List FieldError :=
  if 1 ≤ g.length then [] else [(.gender, "Gender is required.")]

/-- Per-element checks of `symptomSchema` at index `i`. -/
def validateSymptom (i : Nat) (s : Symptom) : List FieldError :=
  (if 1 ≤ s.name.length then [] else [(.symptomName i, "Symptom name is required.")]) ++
  (if 1 ≤ s.severity.length then [] else [(.symptomSeverity i, "Severity is required.")])

/-- `z.array(symptomSchema).min(1, 'Please add at least one symptom.')`. -/
def validateSymptoms (l : List Symptom) : List FieldError :=
  (if 1 ≤ l.length then [] else [(.symptoms, "Please add at least one symptom.")]) ++
  (l.enum.map fun p => validateSymptom p.1 p.2).flatten

/-- First `.refine` of the `medicalImage` field: size of the first file. -/
def imageSizeOk : Option (List ImageFile) → Bool
  | none => true
  | some [] => true
  | some (f :: _) => f.size ≤ MAX_FILE_SIZE

/-- Second `.refine` of the `medicalImage` field: accepted content type. -/
def imageTypeOk : Option (List ImageFile) → Bool
  | none => true
  | some [] => true
  | some (f :: _) => ACCEPTED_IMAGE_TYPES.contains f.type

/-- The `medicalImage` field checks (size then type). -/
def validateImage (img : Option (List ImageFile)) : List FieldError :=
  (if imageSizeOk img then [] else [(.medicalImage, "Max image size is 10MB.")]) ++
  (if imageTypeOk img then []
   else [(.medicalImage, "Only .jpg, .jpeg, .png, .webp and .dicom formats are supported.")])

/-- `z.string().max(1000, 'Description must be less than 1000 characters').optional()`. -/
def validateDescription : Option String → List FieldError
  | none => []
  | some s =>
      if s.length ≤ 1000 then []
      else [(.imageDescription, "Description must be less than 1000 characters")]

/-- The three object-level `.refine` cross-field rules, in source order. -/
def refineErrors (d : FormData) : List FieldError :=
  (if ratTruthy d.weight && !strTruthy d.weightUnit then
     [(.weightUnit, "Weight unit is required if weight is provided.")] else []) ++
  (if ratTruthy d.height && !strTruthy d.heightUnit then
     [(.heightUnit, "Height unit is required if height is provided.")] else []) ++
  (if imageNonempty d.medicalImage && !strTruthy d.imageDescription then
     [(.imageDescription, "Please provide a description for the uploaded image.")] else [])

/-- Full validation of a record by `formSchema`: per-field issues in field
order, then the cross-field refinements.  The record is accepted exactly
when this list is empty. -/
def fullValidate (d : FormData) : List FieldError :=
  validateName d.name ++
  validateAge d.age ++
  validateWeight d.weight ++
  validateHeight d.height ++
  validateGender d.gender ++
  validateSymptoms d.symptoms ++
  validateImage d.medicalImage ++
  validateDescription d.imageDescription ++
  refineErrors d

/-- The issues of a validation result attached to one path. -/
def errorsAt (p : FieldPath) (errs : List FieldError) : List FieldError :=
  errs.filter fun e => e.1 == p

/-- The top-level form field a path belongs to (react-hook-form attaches
nested array errors under the array field name). -/
def topField : FieldPath → FieldPath
  | .symptomName _ => .symptoms
  | .symptomSeverity _ => .symptoms
  | p => p

/-- The issues of full validation whose field lies in a scope, as
react-hook-form `trigger(fields)` reports them. -/
def scopedErrors (scope : List FieldPath) (d : FormData) : List FieldError :=
  (fullValidate d).filter fun e => scope.contains (topField e.1)

/-- The ordered step list `steps` (id, title). -/
def steps : List (String × String) :=
  [("profile", "Your Information"),
   ("symptoms", "Symptoms"),
   ("medical-image", "Medical Image (Optional)"),
   ("medical-history", "Medical History (Optional)"),
   ("review", "Review & Submit")]

/-- The opaque output of the external analysis collaborator. -/
structure AnalyzeSymptomsOutput where
  raw : String
deriving Repr, DecidableEq

/-- Wizard controller state: `currentStep`, the form record, and the
submission flags `isLoading` (the isSubmitting sub-state), `results`,
`error`. -/
structure WizardState where
  currentStep : Nat
  record : FormData
  isLoading : Bool
  results : Option AnalyzeSymptomsOutput
  error : Option String
deriving Repr, DecidableEq

/-- `steps[currentStep].id`. -/
def stepId (s : WizardState) : String :=
  (steps.getD s.currentStep ("", "")).1

/-- `setCurrentStep(prev => Math.min(prev + 1, steps.length - 1))`. -/
def advanceStep (s : WizardState) : WizardState :=
  { s with currentStep := min (s.currentStep + 1) (steps.length - 1) }

/-- The field-path set validated when leaving the profile step:
`methods.trigger` on name, age, gender, weight, weightUnit, height, heightUnit. -/
def profileFields : List FieldPath :=
  [.name, .age, .gender, .weight, .weightUnit, .height, .heightUnit]

/-- `goToNextStep`: per-step gate, then clamped increment.  The profile and
symptoms steps trigger scoped validation; the medical-image step only
checks errors already attached to the `medicalImage` path
(`methods.formState.errors.medicalImage`, kept current by onChange-mode
revalidation); the medical-history and review branches do not validate. -/
def goToNextStep (s : WizardState) : WizardState :=
  if stepId s = "profile" then
    if (scopedErrors profileFields s.record).isEmpty then advanceStep s else s
  else if stepId s = "symptoms" then
    if (scopedErrors [.symptoms] s.record).isEmpty then advanceStep s else s
  else if stepId s = "medical-image" then
    if (errorsAt .medicalImage (fullValidate s.record)).isEmpty then advanceStep s else s
  else
    advanceStep s

/-- `goToPreviousStep`: `setCurrentStep(prev => Math.max(prev - 1, 0))`
(truncated Nat subtraction is exactly the clamp at zero). -/
def goToPreviousStep (s : WizardState) : WizardState :=
  { s with currentStep := s.currentStep - 1 }

/-- `skipStep`: unconditional, unclamped increment, allowed only on the
two optional steps. -/
def skipStep (s : WizardState) : WizardState :=
  if stepId s = "medical-image" || stepId s = "medical-history" then
    { s with currentStep := s.currentStep + 1 }
  else s

/-- The one-element symptom list of `defaultValues`. -/
def defaultSymptoms : List Symptom := [{ name := "", severity := "" }]

/-- The remove-symptom control of SymptomsStep: `remove(index)` guarded by
its disabled condition `fields.length <= 1`. -/
def removeSymptom (d : FormData) (i : Nat) : FormData :=
  if d.symptoms.length ≤ 1 then d
  else { d with symptoms := d.symptoms.eraseIdx i }

/-- The add-symptom control of SymptomsStep: append an empty entry. -/
def addSymptom (d : FormData) : FormData :=
  { d with symptoms := d.symptoms ++ [{ name := "", severity := "" }] }

/-- `removeImage` of MedicalImageStep: clears `medicalImage` and
`imageDescription` in the same operation (errors on both paths are also
cleared; in this embedding errors are derived from the record, so the
post-state of `fullValidate` carries that fact). -/
def removeImage (d : FormData) : FormData :=
  { d with medicalImage := none, imageDescription := none }

/-- The medical-history payload of the analysis collaborator:
parsed condition and medication lists. -/
structure FormattedMedicalHistory where
  pastConditions : List String
  currentMedications : List String
deriving Repr, DecidableEq

/-- JS `split(',')` over the character list: a final accumulator-style
splitter, so `""` splits to `[""]` and a trailing comma yields a trailing
empty part, exactly as in JS. -/
def splitCommaAux : List Char → List Char → List (List Char)
  | [], acc => [acc.reverse]
  | c :: cs, acc =>
      if c = ',' then acc.reverse :: splitCommaAux cs []
      else splitCommaAux cs (c :: acc)

/-- JS `trim()`: drop whitespace from both ends. -/
def jsTrim (l : List Char) : List Char :=
  ((l.dropWhile Char.isWhitespace).reverse.dropWhile Char.isWhitespace).reverse

/-- Split on commas, trim each part, keep the non-empty parts; the empty
list when the field is absent (the optional-chaining plus nullish-default
of the source). -/
def parseCommaList : Option String → List String
  | none => []
  | some s =>
      ((splitCommaAux s.toList []).map fun l => String.mk (jsTrim l)).filter
        fun t => t != ""

/-- `formattedMedicalHistory` built in `onSubmit`. -/
def formatMedicalHistory (m : MedicalHistory) : FormattedMedicalHistory :=
  { pastConditions := parseCommaList m.pastConditions,
    currentMedications := parseCommaList m.currentMedications }

/-- `AnalyzeSymptomsInput`, the payload handed to the analysis collaborator. -/
structure AnalyzeSymptomsInput where
  name : String
  age : ℚ
  weight : Option ℚ
  weightUnit : Option String
  height : Option ℚ
  heightUnit : Option String
  gender : String
  symptoms : List Symptom
  medicalHistory : FormattedMedicalHistory
  imageDataUri : Option String
deriving Repr, DecidableEq

/-- The `input` object assembled in `onSubmit`. -/
def buildAnalyzeInput (d : FormData) (imageDataUri : Option String) : AnalyzeSymptomsInput :=
  { name := d.name
    age := d.age
    weight := d.weight
    weightUnit := d.weightUnit
    height := d.height
    heightUnit := d.heightUnit
    gender := d.gender
    symptoms := d.symptoms
    medicalHistory := formatMedicalHistory d.medicalHistory
    imageDataUri := imageDataUri }

/-- Page-level message set when the analysis collaborator call fails. -/
def analysisErrorMessage : String :=
  "An error occurred while analyzing symptoms. The AI model might have limitations with image analysis or the input provided. Please ensure the image is clear and relevant, or try removing it. If the problem persists, contact support."

/-- Message set when converting the uploaded image to a data URI fails. -/
def imageProcessErrorMessage : String :=
  "Failed to process the uploaded image. Please try again."

/-- `onSubmit(data)`.  The two external asynchronous effects are passed as
results: `encodeImage` stands for the file-to-data-URI conversion of the
first uploaded file and `analyze` for the analysis collaborator.  Returns
the settled state together with the payload handed to the collaborator
(`none` when the call was never made).  Mirrors the source: set loading
and clear error/results, encode the image only when the record holds a
non-empty file list (early error return on failure), build the input,
call the collaborator, record result or error, and always clear
`isLoading` (the `finally` clause). -/
def onSubmit (s : WizardState) (data : FormData)
    (encodeImage : Except String String)
    (analyze : AnalyzeSymptomsInput → Except String AnalyzeSymptomsOutput) :
    WizardState × Option AnalyzeSymptomsInput :=
  let s1 := { s with isLoading := true, error := none, results := none }
  let uriStep : Except String (Option String) :=
    match data.medicalImage with
    | some (_ :: _) => encodeImage.map some
    | _ => .ok none
  match uriStep with
  | .error _ =>
      ({ s1 with error := some imageProcessErrorMessage, isLoading := false }, none)
  | .ok imageDataUri =>
      let input := buildAnalyzeInput data imageDataUri
      match analyze input with
      | .ok res => ({ s1 with results := some res, isLoading := false }, some input)
      | .error _ =>
          ({ s1 with error := some analysisErrorMessage, isLoading := false }, some input)

/-- The end-to-end record of spec section 8: Jane with weight 70 set and
`weightUnit` absent. -/
def janeNoUnit : FormData :=
  { name := "Jane"
    age := 30
    weight := some 70
    weightUnit := none
    height := none
    heightUnit := none
    gender := "Female"
    symptoms := [{ name := "Headache", severity := "Mild" }]
    medicalHistory := { pastConditions := none, currentMedications := none }
    medicalImage := none
    imageDescription := none }

/-- The same record with weightUnit "kg" added: fully valid. -/
def janeKg : FormData := { janeNoUnit with weightUnit := some "kg" }

/-- Jane with a height magnitude set and `heightUnit` absent. -/
def janeNoHeightUnit : FormData := { janeKg with height := some 170, heightUnit := none }

/-- Jane with an uploaded image (small PNG) and no image description. -/
def janeImageNoDesc : FormData :=
  { janeKg with
      medicalImage := some [{ size := 1000, type := "image/png" }],
      imageDescription := none }

/-- A wizard state at a given step over a given record, with no submission
in flight and no result or error surfaced. -/
def mkState (i : Nat) (d : FormData) : WizardState :=
  { currentStep := i, record := d, isLoading := false, results := none, error := none }

/-! ### Helper lemmas about the validator -/

theorem errorsAt_append (p : FieldPath) (a b : List FieldError) :
    errorsAt p (a ++ b) = errorsAt p a ++ errorsAt p b :=
  List.filter_append ..

theorem mem_if_error {c : Prop} [Decidable c] {x e : FieldError}
    (he : e ∈ (if c then ([] : List FieldError) else [x])) : e = x := by
  split at he <;> simp_all

theorem mem_if_refine {c : Prop} [Decidable c] {x e : FieldError}
    (he : e ∈ (if c then [x] else ([] : List FieldError))) : e = x ∧ c := by
  split at he <;> simp_all

theorem mem_validateName {n : String} {e : FieldError} (he : e ∈ validateName n) :
    e.1 = FieldPath.name := by
  unfold validateName at he
  have := mem_if_error he
  subst this
  rfl

theorem mem_validateAge {a : ℚ} {e : FieldError} (he : e ∈ validateAge a) :
    e.1 = FieldPath.age := by
  unfold validateAge at he
  rcases List.mem_append.1 he with h | h
  · rcases List.mem_append.1 h with h2 | h2 <;> rw [mem_if_error h2]
  · have := mem_if_error h; subst this; rfl

theorem mem_validateWeight {w : Option ℚ} {e : FieldError} (he : e ∈ validateWeight w) :
    e.1 = FieldPath.weight := by
  cases w with
  | none => simp [validateWeight] at he
  | some x =>
    unfold validateWeight at he
    have := mem_if_error he
    subst this
    rfl

theorem mem_validateHeight {w : Option ℚ} {e : FieldError} (he : e ∈ validateHeight w) :
    e.1 = FieldPath.height := by
  cases w with
  | none => simp [validateHeight] at he
  | some x =>
    unfold validateHeight at he
    have := mem_if_error he
    subst this
    rfl

theorem mem_validateGender {g : String} {e : FieldError} (he : e ∈ validateGender g) :
    e.1 = FieldPath.gender := by
  unfold validateGender at he
  have := mem_if_error he
  subst this
  rfl

theorem mem_validateSymptoms {l : List Symptom} {e : FieldError}
    (he : e ∈ validateSymptoms l) :
    e.1 = FieldPath.symptoms ∨ (∃ i, e.1 = FieldPath.symptomName i) ∨
      (∃ i, e.1 = FieldPath.symptomSeverity i) := by
  unfold validateSymptoms at he
  rcases List.mem_append.1 he with h | h
  · have := mem_if_error h; subst this; exact Or.inl rfl
  · rcases List.mem_flatten.1 h with ⟨piece, hpiece, hmem⟩
    rcases List.mem_map.1 hpiece with ⟨⟨i, s⟩, _, rfl⟩
    unfold validateSymptom at hmem
    rcases List.mem_append.1 hmem with h2 | h2
    · have := mem_if_error h2; subst this; exact Or.inr (Or.inl ⟨i, rfl⟩)
    · have := mem_if_error h2; subst this; exact Or.inr (Or.inr ⟨i, rfl⟩)

theorem mem_validateImage {img : Option (List ImageFile)} {e : FieldError}
    (he : e ∈ validateImage img) : e.1 = FieldPath.medicalImage := by
  unfold validateImage at he
  rcases List.mem_append.1 he with h | h <;> rw [mem_if_error h]

theorem mem_validateDescription {w : Option String} {e : FieldError}
    (he : e ∈ validateDescription w) : e.1 = FieldPath.imageDescription := by
  cases w with
  | none => simp [validateDescription] at he
  | some x =>
    unfold validateDescription at he
    have := mem_if_error he
    subst this
    rfl

theorem mem_refineErrors {d : FormData} {e : FieldError} (he : e ∈ refineErrors d) :
    e.1 = FieldPath.weightUnit ∨ e.1 = FieldPath.heightUnit ∨
      (e.1 = FieldPath.imageDescription ∧
        (imageNonempty d.medicalImage && !strTruthy d.imageDescription) = true) := by
  unfold refineErrors at he
  rcases List.mem_append.1 he with h | h
  · rcases List.mem_append.1 h with h2 | h2
    · obtain ⟨rfl, _⟩ := mem_if_refine h2; exact Or.inl rfl
    · obtain ⟨rfl, _⟩ := mem_if_refine h2; exact Or.inr (Or.inl rfl)
  · obtain ⟨rfl, hc⟩ := mem_if_refine h
    exact Or.inr (Or.inr ⟨rfl, by exact_mod_cast hc⟩)

theorem errorsAt_eq_nil_of {p : FieldPath} {l : List FieldError}
    (h : ∀ e ∈ l, e.1 ≠ p) : errorsAt p l = [] := by
  unfold errorsAt
  exact List.filter_eq_nil_iff.mpr (by intro e he; simpa using h e he)

theorem errorsAt_eq_self_of {p : FieldPath} {l : List FieldError}
    (h : ∀ e ∈ l, e.1 = p) : errorsAt p l = l := by
  unfold errorsAt
  exact List.filter_eq_self.mpr (by intro e he; simpa using h e he)

/-- Full validation attaches to the `gender` path exactly the issues of the
per-field gender rule. -/
theorem errorsAt_gender_fullValidate (d : FormData) :
    errorsAt FieldPath.gender (fullValidate d) = validateGender d.gender := by
  unfold fullValidate
  simp only [errorsAt_append]
  rw [errorsAt_eq_nil_of (fun e he => by simp [mem_validateName he]),
    errorsAt_eq_nil_of (fun e he => by simp [mem_validateAge he]),
    errorsAt_eq_nil_of (fun e he => by simp [mem_validateWeight he]),
    errorsAt_eq_nil_of (fun e he => by simp [mem_validateHeight he]),
    errorsAt_eq_self_of (fun e he => mem_validateGender he),
    errorsAt_eq_nil_of (fun e he => by
      rcases mem_validateSymptoms he with h | ⟨i, h⟩ | ⟨i, h⟩ <;> simp [h]),
    errorsAt_eq_nil_of (fun e he => by simp [mem_validateImage he]),
    errorsAt_eq_nil_of (fun e he => by simp [mem_validateDescription he]),
    errorsAt_eq_nil_of (fun e he => by
      rcases mem_refineErrors he with h | h | ⟨h, _⟩ <;> simp [h])]
  simp

/-- Full validation attaches to the `medicalImage` path exactly the issues
of the file size and type rules. -/
theorem errorsAt_medicalImage_fullValidate (d : FormData) :
    errorsAt FieldPath.medicalImage (fullValidate d) = validateImage d.medicalImage := by
  unfold fullValidate
  simp only [errorsAt_append]
  rw [errorsAt_eq_nil_of (fun e he => by simp [mem_validateName he]),
    errorsAt_eq_nil_of (fun e he => by simp [mem_validateAge he]),
    errorsAt_eq_nil_of (fun e he => by simp [mem_validateWeight he]),
    errorsAt_eq_nil_of (fun e he => by simp [mem_validateHeight he]),
    errorsAt_eq_nil_of (fun e he => by simp [mem_validateGender he]),
    errorsAt_eq_nil_of (fun e he => by
      rcases mem_validateSymptoms he with h | ⟨i, h⟩ | ⟨i, h⟩ <;> simp [h]),
    errorsAt_eq_self_of (fun e he => mem_validateImage he),
    errorsAt_eq_nil_of (fun e he => by simp [mem_validateDescription he]),
    errorsAt_eq_nil_of (fun e he => by
      rcases mem_refineErrors he with h | h | ⟨h, _⟩ <;> simp [h])]
  simp

/-- When the record holds no (non-empty) image, full validation attaches to
the `imageDescription` path exactly the issues of the length rule. -/
theorem errorsAt_imageDescription_fullValidate (d : FormData)
    (him : imageNonempty d.medicalImage = false) :
    errorsAt FieldPath.imageDescription (fullValidate d) =
      validateDescription d.imageDescription := by
  unfold fullValidate
  simp only [errorsAt_append]
  rw [errorsAt_eq_nil_of (fun e he => by simp [mem_validateName he]),
    errorsAt_eq_nil_of (fun e he => by simp [mem_validateAge he]),
    errorsAt_eq_nil_of (fun e he => by simp [mem_validateWeight he]),
    errorsAt_eq_nil_of (fun e he => by simp [mem_validateHeight he]),
    errorsAt_eq_nil_of (fun e he => by simp [mem_validateGender he]),
    errorsAt_eq_nil_of (fun e he => by
      rcases mem_validateSymptoms he with h | ⟨i, h⟩ | ⟨i, h⟩ <;> simp [h]),
    errorsAt_eq_nil_of (fun e he => by simp [mem_validateImage he]),
    errorsAt_eq_self_of (fun e he => mem_validateDescription he),
    errorsAt_eq_nil_of (fun e he => by
      rcases mem_refineErrors he with h | h | ⟨h, hc⟩
      · simp [h]
      · simp [h]
      · rw [him] at hc; simp at hc)]
  simp

/-- `goToNextStep` either rejects the transition or advances the step. -/
theorem goToNextStep_eq_or (s : WizardState) :
    goToNextStep s = s ∨ goToNextStep s = advanceStep s := by
  unfold goToNextStep
  split
  · split
    · exact Or.inr rfl
    · exact Or.inl rfl
  · split
    · split
      · exact Or.inr rfl
      · exact Or.inl rfl
    · split
      · split
        · exact Or.inr rfl
        · exact Or.inl rfl
      · exact Or.inr rfl

/-- Navigation never touches the record. -/
theorem goToNextStep_record (s : WizardState) : (goToNextStep s).record = s.record := by
  rcases goToNextStep_eq_or s with h | h <;> simp [h, advanceStep]

/-! ### Claims -/

/-- C2: for every record with weight present (a positive magnitude, per the
data model) and weightUnit absent, full validation fails with an error
attached to `weightUnit`; symmetrically for height and `heightUnit`. -/
theorem weight_height_unit_required :
    (∀ (d : FormData) (w : ℚ), d.weight = some w → 0 < w → d.weightUnit = none →
      (FieldPath.weightUnit, "Weight unit is required if weight is provided.") ∈ fullValidate d ∧
      fullValidate d ≠ []) ∧
    (∀ (d : FormData) (v : ℚ), d.height = some v → 0 < v → d.heightUnit = none →
      (FieldPath.heightUnit, "Height unit is required if height is provided.") ∈ fullValidate d ∧
      fullValidate d ≠ []) := by
  constructor
  · intro d w hw hpos hunit
    have hmem : (FieldPath.weightUnit, "Weight unit is required if weight is provided.")
        ∈ refineErrors d := by
      unfold refineErrors
      rw [hw, hunit]
      simp [ratTruthy, strTruthy, hpos.ne']
    refine ⟨?_, ?_⟩
    · unfold fullValidate
      exact List.mem_append_right _ hmem
    · exact List.ne_nil_of_mem (by unfold fullValidate; exact List.mem_append_right _ hmem)
  · intro d v hv hpos hunit
    have hmem : (FieldPath.heightUnit, "Height unit is required if height is provided.")
        ∈ refineErrors d := by
      unfold refineErrors
      rw [hv, hunit]
      simp [ratTruthy, strTruthy, hpos.ne']
    refine ⟨?_, ?_⟩
    · unfold fullValidate
      exact List.mem_append_right _ hmem
    · exact List.ne_nil_of_mem (by unfold fullValidate; exact List.mem_append_right _ hmem)

/-- Witness for C2 at the concrete Jane records. -/
theorem weight_height_unit_required_witness :
    ((FieldPath.weightUnit, "Weight unit is required if weight is provided.")
        ∈ fullValidate janeNoUnit ∧ fullValidate janeNoUnit ≠ []) ∧
    ((FieldPath.heightUnit, "Height unit is required if height is provided.")
        ∈ fullValidate janeNoHeightUnit ∧ fullValidate janeNoHeightUnit ≠ []) :=
  ⟨weight_height_unit_required.1 janeNoUnit 70 rfl (by norm_num) rfl,
   weight_height_unit_required.2 janeNoHeightUnit 170 rfl (by norm_num) rfl⟩

/-- C3: for every record with a non-empty `medicalImage` and an empty or
absent `imageDescription`, full validation fails with an error attached to
`imageDescription`. -/
theorem image_description_required :
    ∀ (d : FormData) (f : ImageFile) (fs : List ImageFile),
      d.medicalImage = some (f :: fs) →
      d.imageDescription = none ∨ d.imageDescription = some "" →
      (FieldPath.imageDescription, "Please provide a description for the uploaded image.")
          ∈ fullValidate d ∧
      fullValidate d ≠ [] := by
  intro d f fs himg hdesc
  have hmem : (FieldPath.imageDescription,
      "Please provide a description for the uploaded image.") ∈ refineErrors d := by
    unfold refineErrors
    rw [himg]
    rcases hdesc with h | h <;> rw [h] <;> simp [imageNonempty, strTruthy]
  refine ⟨?_, ?_⟩
  · unfold fullValidate
    exact List.mem_append_right _ hmem
  · exact List.ne_nil_of_mem (by unfold fullValidate; exact List.mem_append_right _ hmem)

/-- Witness for C3 at the concrete record with an image and no description. -/
theorem image_description_required_witness :
    (FieldPath.imageDescription, "Please provide a description for the uploaded image.")
        ∈ fullValidate janeImageNoDesc ∧
    fullValidate janeImageNoDesc ≠ [] :=
  image_description_required janeImageNoDesc { size := 1000, type := "image/png" } [] rfl
    (Or.inl rfl)

/-- C6: an empty symptoms list fails full validation with an error
attributable to `symptoms`; the initial record carries exactly one symptom
entry; the remove-symptom operation is a no-op while at most one entry
remains, and it preserves the at-least-one invariant, as does adding. -/
theorem symptoms_min_one_invariant :
    (∀ d : FormData, d.symptoms = [] →
      (FieldPath.symptoms, "Please add at least one symptom.") ∈ fullValidate d ∧
      fullValidate d ≠ []) ∧
    defaultSymptoms.length = 1 ∧
    (∀ (d : FormData) (i : Nat), d.symptoms.length ≤ 1 → removeSymptom d i = d) ∧
    (∀ (d : FormData) (i : Nat), 1 ≤ d.symptoms.length →
      1 ≤ (removeSymptom d i).symptoms.length) ∧
    (∀ d : FormData, 1 ≤ (addSymptom d).symptoms.length) := by
  refine ⟨?_, rfl, ?_, ?_, ?_⟩
  · intro d hsym
    have hmem : (FieldPath.symptoms, "Please add at least one symptom.")
        ∈ validateSymptoms d.symptoms := by
      rw [hsym]; simp [validateSymptoms]
    have hin : (FieldPath.symptoms, "Please add at least one symptom.") ∈ fullValidate d := by
      unfold fullValidate
      exact List.mem_append_left _ (List.mem_append_left _ (List.mem_append_left _
        (List.mem_append_right _ hmem)))
    exact ⟨hin, List.ne_nil_of_mem hin⟩
  · intro d i h
    unfold removeSymptom
    rw [if_pos h]
  · intro d i h
    unfold removeSymptom
    split
    · exact h
    · next hlen =>
      simp only [List.length_eraseIdx]
      split <;> omega
  · intro d
    simp [addSymptom]

/-- Witness for C6 at concrete inputs: the empty-symptom record fails, and
removal from a one-entry list is refused. -/
theorem symptoms_min_one_invariant_witness :
    ((FieldPath.symptoms, "Please add at least one symptom.")
        ∈ fullValidate { janeKg with symptoms := [] } ∧
      fullValidate { janeKg with symptoms := [] } ≠ []) ∧
    removeSymptom janeKg 0 = janeKg ∧
    1 ≤ (removeSymptom janeKg 0).symptoms.length :=
  ⟨symptoms_min_one_invariant.1 { janeKg with symptoms := [] } rfl,
   symptoms_min_one_invariant.2.2.1 janeKg 0 (by decide),
   symptoms_min_one_invariant.2.2.2.1 janeKg 0 (by decide)⟩

/-- C7 counterexample: a record whose gender is outside the enumerated
gender set is nonetheless accepted by full validation, refuting the claim
that validation admits only members of the set and errors otherwise. -/
theorem gender_enum_counterexample :
    fullValidate { janeKg with gender := "Alien" } = [] ∧
    "Alien" ∉ genderOptions := by decide

/-- C7 amended: full validation checks gender only for non-emptiness — an
error is attached to `gender` exactly when the gender string is empty;
membership in the enumerated set `genderOptions` is offered by the UI
select but not enforced by the validator. -/
theorem gender_validated_nonempty_only :
    ∀ d : FormData,
      (errorsAt FieldPath.gender (fullValidate d) ≠ [] ↔ d.gender = "") := by
  intro d
  rw [errorsAt_gender_fullValidate]
  unfold validateGender
  constructor
  · intro h
    by_cases hg : 1 ≤ d.gender.length
    · rw [if_pos hg] at h
      exact absurd rfl h
    · have h0 : d.gender.length = 0 := by omega
      exact String.ext (List.length_eq_zero.mp h0)
  · intro h
    rw [h]
    decide

/-- Witness for the amended C7: the empty-gender record has a gender error,
the non-empty "Alien" gender does not. -/
theorem gender_validated_nonempty_only_witness :
    errorsAt FieldPath.gender (fullValidate { janeKg with gender := "" }) ≠ [] ∧
    ¬ errorsAt FieldPath.gender (fullValidate { janeKg with gender := "Alien" }) ≠ [] :=
  ⟨(gender_validated_nonempty_only { janeKg with gender := "" }).mpr rfl,
   fun h => by have := (gender_validated_nonempty_only { janeKg with gender := "Alien" }).mp h
               exact absurd this (by decide)⟩

/-- C9: removing an image clears both the image and its description in the
same operation, after which no validation error is attached to either path
and the image-iff-description invariant holds. -/
theorem remove_image_clears :
    ∀ d : FormData,
      (removeImage d).medicalImage = none ∧
      (removeImage d).imageDescription = none ∧
      errorsAt FieldPath.medicalImage (fullValidate (removeImage d)) = [] ∧
      errorsAt FieldPath.imageDescription (fullValidate (removeImage d)) = [] ∧
      ((removeImage d).medicalImage ≠ none ↔ (removeImage d).imageDescription ≠ none) := by
  intro d
  refine ⟨rfl, rfl, ?_, ?_, by simp [removeImage]⟩
  · rw [errorsAt_medicalImage_fullValidate]
    rfl
  · rw [errorsAt_imageDescription_fullValidate (removeImage d) (by rfl)]
    rfl

/-- C1: leaving the profile step triggers validation scoped to the profile
field-path set; rejection leaves the step (and record) unchanged, success
increments the step clamped to the last index.  Concretely, Jane with
weight set and no weight unit is rejected with an error on `weightUnit`,
and the same record with unit "kg" advances to the symptoms step. -/
theorem profile_step_scoped_next :
    (∀ s : WizardState, s.currentStep = 0 →
      (goToNextStep s).record = s.record ∧
      (scopedErrors profileFields s.record ≠ [] → goToNextStep s = s) ∧
      (scopedErrors profileFields s.record = [] →
        goToNextStep s =
          { s with currentStep := min (s.currentStep + 1) (steps.length - 1) })) ∧
    (FieldPath.weightUnit, "Weight unit is required if weight is provided.")
        ∈ scopedErrors profileFields janeNoUnit ∧
    goToNextStep (mkState 0 janeNoUnit) = mkState 0 janeNoUnit ∧
    (goToNextStep (mkState 0 janeKg)).currentStep = 1 ∧
    (steps.getD 1 ("", "")).1 = "symptoms" := by
  refine ⟨?_, by decide, by decide, by decide, rfl⟩
  intro s h
  have hid : stepId s = "profile" := by
    show (steps.getD s.currentStep ("", "")).1 = "profile"
    rw [h]
    rfl
  have hsplit : goToNextStep s =
      if (scopedErrors profileFields s.record).isEmpty then advanceStep s else s := by
    unfold goToNextStep
    rw [hid, if_pos rfl]
  refine ⟨goToNextStep_record s, ?_, ?_⟩
  · intro hne
    rcases he : scopedErrors profileFields s.record with _ | ⟨a, t⟩
    · exact absurd he hne
    · rw [he] at hsplit
      simpa using hsplit
  · intro hnil
    rw [hnil] at hsplit
    simp only [List.isEmpty_nil, if_true] at hsplit
    rw [hsplit]
    rfl

/-- Witness for C1: the valid Jane record advances from the profile step. -/
theorem profile_step_scoped_next_witness :
    goToNextStep (mkState 0 janeKg) =
      { mkState 0 janeKg with currentStep := min (0 + 1) (steps.length - 1) } :=
  (profile_step_scoped_next.1 (mkState 0 janeKg) rfl).2.2 (by decide)

/-- C8 counterexample: with an image present and no description, rule 3 is
violated (an `imageDescription` error exists), yet `next()` from the
medical-image step advances to step 3, because only errors attached to the
`medicalImage` path are consulted. -/
theorem image_step_rule3_counterexample :
    (FieldPath.imageDescription, "Please provide a description for the uploaded image.")
        ∈ fullValidate janeImageNoDesc ∧
    imageNonempty janeImageNoDesc.medicalImage = true ∧
    stepId (mkState 2 janeImageNoDesc) = "medical-image" ∧
    (goToNextStep (mkState 2 janeImageNoDesc)).currentStep = 3 := by decide

/-- C8 amended: `next()` from the medical-image step consults only errors
attached to the `medicalImage` path (file size and type); rule 3 attaches
its error to `imageDescription` and therefore never blocks this
transition.  The step is rejected exactly when a `medicalImage` error is
present, and advances to the medical-history step otherwise. -/
theorem image_step_checks_only_image_errors :
    ∀ s : WizardState, s.currentStep = 2 →
      (goToNextStep s).record = s.record ∧
      (errorsAt FieldPath.medicalImage (fullValidate s.record) ≠ [] → goToNextStep s = s) ∧
      (errorsAt FieldPath.medicalImage (fullValidate s.record) = [] →
        goToNextStep s = { s with currentStep := 3 }) := by
  intro s h
  have hid : stepId s = "medical-image" := by
    show (steps.getD s.currentStep ("", "")).1 = "medical-image"
    rw [h]
    rfl
  have hsplit : goToNextStep s =
      if (errorsAt FieldPath.medicalImage (fullValidate s.record)).isEmpty
      then advanceStep s else s := by
    unfold goToNextStep
    rw [hid]
    rw [if_neg (by decide), if_neg (by decide), if_pos rfl]
  refine ⟨goToNextStep_record s, ?_, ?_⟩
  · intro hne
    rcases he : errorsAt FieldPath.medicalImage (fullValidate s.record) with _ | ⟨a, t⟩
    · exact absurd he hne
    · rw [he] at hsplit
      simpa using hsplit
  · intro hnil
    rw [hnil] at hsplit
    simp only [List.isEmpty_nil, if_true] at hsplit
    rw [hsplit]
    unfold advanceStep
    rw [h]
    rfl

/-- Witness for the amended C8: the image-without-description record has no
`medicalImage` error and advances from the medical-image step. -/
theorem image_step_checks_only_image_errors_witness :
    goToNextStep (mkState 2 janeImageNoDesc) = { mkState 2 janeImageNoDesc with currentStep := 3 } :=
  (image_step_checks_only_image_errors (mkState 2 janeImageNoDesc) rfl).2.2 (by decide)

/-- C10 counterexample: from the review step (index 4), `next()` clamps at
the last index and `previous()` then moves to 3, so the next-then-previous
round trip does not return to the starting step. -/
theorem nav_round_trip_counterexample :
    (mkState 4 janeKg).currentStep = 4 ∧
    (goToPreviousStep (goToNextStep (mkState 4 janeKg))).currentStep ≠
      (mkState 4 janeKg).currentStep ∧
    (goToPreviousStep (goToNextStep (mkState 4 janeKg))).currentStep = 3 := by decide

/-- C10 amended: `previous()` is total, performs no validation, decrements
the step clamped to zero and never changes the record; `next()` never
changes the record; whenever `next()` actually advances the step, `next()`
followed by `previous()` returns to the starting state; whenever `next()`
leaves the state unchanged (rejection by validation, or the clamp at the
last index, which does leave the state unchanged), the pair instead ends
at the clamped decrement of the starting step. -/
theorem previous_clamped_and_round_trip :
    (∀ s : WizardState, goToPreviousStep s = { s with currentStep := s.currentStep - 1 }) ∧
    (∀ s : WizardState,
      (goToPreviousStep s).record = s.record ∧ (goToNextStep s).record = s.record) ∧
    (∀ s : WizardState, (goToNextStep s).currentStep = s.currentStep + 1 →
      goToPreviousStep (goToNextStep s) = s) ∧
    (∀ s : WizardState, goToNextStep s = s →
      goToPreviousStep (goToNextStep s) = { s with currentStep := s.currentStep - 1 }) ∧
    (∀ s : WizardState, s.currentStep = steps.length - 1 → goToNextStep s = s) := by
  refine ⟨fun s => rfl, fun s => ⟨rfl, goToNextStep_record s⟩, ?_, ?_, ?_⟩
  · intro s hadv
    rcases goToNextStep_eq_or s with h | h
    · rw [h] at hadv
      omega
    · rw [h] at hadv ⊢
      have hm : min (s.currentStep + 1) (steps.length - 1) = s.currentStep + 1 := hadv
      obtain ⟨cs, rec, il, res, err⟩ := s
      simp only [advanceStep, goToPreviousStep] at hm ⊢
      rw [hm]
      simp
  · intro s h
    rw [h]
    rfl
  · intro s h
    have hid : stepId s = "review" := by
      show (steps.getD s.currentStep ("", "")).1 = "review"
      rw [h]
      rfl
    unfold goToNextStep
    rw [hid]
    rw [if_neg (by decide), if_neg (by decide), if_neg (by decide)]
    obtain ⟨cs, rec, il, res, err⟩ := s
    simp only [steps] at h
    simp [advanceStep, h, steps]

/-- Witness for the amended C10 at concrete inputs: from step 0 with a
valid record the round trip returns to the start; from the last step,
where `next()` clamps and leaves the state unchanged, the pair ends one
step down. -/
theorem previous_clamped_and_round_trip_witness :
    goToPreviousStep (goToNextStep (mkState 0 janeKg)) = mkState 0 janeKg ∧
    goToNextStep (mkState 4 janeKg) = mkState 4 janeKg ∧
    goToPreviousStep (goToNextStep (mkState 4 janeKg)) =
      { mkState 4 janeKg with currentStep := 4 - 1 } :=
  ⟨previous_clamped_and_round_trip.2.2.1 (mkState 0 janeKg) (by decide),
   previous_clamped_and_round_trip.2.2.2.2 (mkState 4 janeKg) rfl,
   previous_clamped_and_round_trip.2.2.2.1 (mkState 4 janeKg) (by decide)⟩

/-- The three settled outcomes of `onSubmit`: image-encoding failure,
analysis success, analysis failure.  In every outcome `isLoading` is
cleared. -/
theorem onSubmit_result (s : WizardState) (data : FormData)
    (enc : Except String String)
    (analyze : AnalyzeSymptomsInput → Except String AnalyzeSymptomsOutput) :
    (onSubmit s data enc analyze =
        ({ s with
            isLoading := false
            error := some imageProcessErrorMessage
            results := none }, none)) ∨
    (∃ input res, analyze input = Except.ok res ∧
      onSubmit s data enc analyze =
        ({ s with isLoading := false, error := none, results := some res }, some input)) ∨
    (∃ input e, analyze input = Except.error e ∧
      onSubmit s data enc analyze =
        ({ s with
            isLoading := false
            error := some analysisErrorMessage
            results := none }, some input)) := by
  unfold onSubmit
  cases hd : data.medicalImage with
  | none =>
    cases hana : analyze (buildAnalyzeInput data none) with
    | ok res => exact Or.inr (Or.inl ⟨_, res, hana, by simp [hana]⟩)
    | error e => exact Or.inr (Or.inr ⟨_, e, hana, by simp [hana]⟩)
  | some l =>
    cases l with
    | nil =>
      cases hana : analyze (buildAnalyzeInput data none) with
      | ok res => exact Or.inr (Or.inl ⟨_, res, hana, by simp [hana]⟩)
      | error e => exact Or.inr (Or.inr ⟨_, e, hana, by simp [hana]⟩)
    | cons f fs =>
      cases enc with
      | error msg => exact Or.inl (by simp [Except.map])
      | ok uri =>
        cases hana : analyze (buildAnalyzeInput data (some uri)) with
        | ok res => exact Or.inr (Or.inl ⟨_, res, hana, by simp [Except.map, hana]⟩)
        | error e => exact Or.inr (Or.inr ⟨_, e, hana, by simp [Except.map, hana]⟩)

/-- When the record carries no image, `onSubmit` hands the collaborator the
payload built with an absent data URI. -/
theorem onSubmit_payload_noImage (s : WizardState) (data : FormData)
    (enc : Except String String)
    (analyze : AnalyzeSymptomsInput → Except String AnalyzeSymptomsOutput)
    (himg : data.medicalImage = none) :
    (onSubmit s data enc analyze).2 = some (buildAnalyzeInput data none) := by
  unfold onSubmit
  rw [himg]
  cases hana : analyze (buildAnalyzeInput data none) <;> simp [hana]

/-- C4: `submit()` never settles with `isLoading` set; and when the
analysis collaborator call fails, the controller settles back on the
review step with `isLoading` false, no results, and the non-empty
analysis error message attached. -/
theorem submit_failure_settles_on_review :
    (∀ (s : WizardState) (data : FormData) (enc : Except String String)
       (analyze : AnalyzeSymptomsInput → Except String AnalyzeSymptomsOutput),
       ((onSubmit s data enc analyze).1).isLoading = false) ∧
    (∀ (s : WizardState) (data : FormData) (enc : Except String String)
       (analyze : AnalyzeSymptomsInput → Except String AnalyzeSymptomsOutput)
       (input : AnalyzeSymptomsInput) (e : String),
       s.currentStep = 4 →
       (onSubmit s data enc analyze).2 = some input →
       analyze input = Except.error e →
       (onSubmit s data enc analyze).1.currentStep = 4 ∧
       (onSubmit s data enc analyze).1.isLoading = false ∧
       (onSubmit s data enc analyze).1.error = some analysisErrorMessage ∧
       analysisErrorMessage ≠ "" ∧
       (onSubmit s data enc analyze).1.results = none) := by
  constructor
  · intro s data enc analyze
    rcases onSubmit_result s data enc analyze with h | ⟨input, res, _, h⟩ | ⟨input, e, _, h⟩ <;>
      rw [h]
  · intro s data enc analyze input e hstep hgiven hfail
    rcases onSubmit_result s data enc analyze with h | ⟨input2, res, hok, h⟩ |
        ⟨input2, e2, herr, h⟩
    · rw [h] at hgiven
      exact absurd hgiven (by simp)
    · rw [h] at hgiven
      simp at hgiven
      rw [hgiven] at hok
      rw [hok] at hfail
      exact absurd hfail (by simp)
    · rw [h]
      exact ⟨hstep, rfl, rfl, by decide, rfl⟩

/-- Witness for C4: a collaborator that always fails leaves the review-step
state settled with the error message and no loading flag. -/
theorem submit_failure_settles_on_review_witness :
    (onSubmit (mkState 4 janeKg) janeKg (Except.ok "uri")
        (fun _ => Except.error "boom")).1.currentStep = 4 ∧
    (onSubmit (mkState 4 janeKg) janeKg (Except.ok "uri")
        (fun _ => Except.error "boom")).1.isLoading = false ∧
    (onSubmit (mkState 4 janeKg) janeKg (Except.ok "uri")
        (fun _ => Except.error "boom")).1.error = some analysisErrorMessage ∧
    analysisErrorMessage ≠ "" ∧
    (onSubmit (mkState 4 janeKg) janeKg (Except.ok "uri")
        (fun _ => Except.error "boom")).1.results = none :=
  submit_failure_settles_on_review.2 (mkState 4 janeKg) janeKg (Except.ok "uri")
    (fun _ => Except.error "boom") (buildAnalyzeInput janeKg none) "boom" rfl rfl rfl

/-- C5: for a fully valid record with no image, `submit()` hands the
collaborator exactly the payload built from the record: `imageDataUri`
absent, and the medical-history lists the trimmed non-empty
comma-separated parts of the raw text (empty lists for blank or absent
text). -/
theorem submit_payload_shape :
    ∀ (s : WizardState) (data : FormData) (enc : Except String String)
      (analyze : AnalyzeSymptomsInput → Except String AnalyzeSymptomsOutput),
      fullValidate data = [] →
      data.medicalImage = none →
      (onSubmit s data enc analyze).2 = some (buildAnalyzeInput data none) ∧
      (buildAnalyzeInput data none).imageDataUri = none ∧
      (buildAnalyzeInput data none).medicalHistory =
        { pastConditions := parseCommaList data.medicalHistory.pastConditions,
          currentMedications := parseCommaList data.medicalHistory.currentMedications } ∧
      (∀ t : Option String, t = none ∨ t = some "" → parseCommaList t = []) := by
  intro s data enc analyze hvalid himg
  refine ⟨onSubmit_payload_noImage s data enc analyze himg, rfl, rfl, ?_⟩
  intro t ht
  rcases ht with h | h <;> rw [h]
  · rfl
  · decide

/-- Witness for C5 at the concrete valid Jane record, whose history text
fields are absent: the payload lists are empty. -/
theorem submit_payload_shape_witness :
    (onSubmit (mkState 4 janeKg) janeKg (Except.ok "uri")
        (fun _ => Except.ok { raw := "ok" })).2 = some (buildAnalyzeInput janeKg none) ∧
    (buildAnalyzeInput janeKg none).imageDataUri = none ∧
    (buildAnalyzeInput janeKg none).medicalHistory.pastConditions = [] ∧
    (buildAnalyzeInput janeKg none).medicalHistory.currentMedications = [] :=
  ⟨(submit_payload_shape (mkState 4 janeKg) janeKg (Except.ok "uri")
      (fun _ => Except.ok { raw := "ok" }) (by decide) rfl).1, rfl, rfl, rfl⟩

end PredictionSystem
